import Mathlib

/-!
Shallow embedding of the SMWDataManager geodata pipeline
(`src/download_data.py` and `src/process_geodata.py`): cell values,
tabular/geospatial tables, the parquet artifact store, format dispatch,
the loaders, the join engine and the batch orchestration, together with
theorems checking the specification's claims against these definitions.
-/

namespace SMWDM

/-- Cell values of a dataframe column: integers, strings, and the point
geometries synthesized by `gpd.points_from_xy`. -/
inductive Value where
  | intV : Int → Value
  | strV : String → Value
  | pointV : Value → Value → Value
deriving DecidableEq, Repr

/-- Python `str()` on a cell value, as used by `.astype(str)` in
`process_geodata.py` line 230. -/
def valueToString : Value → String
  | .intV n => toString n
  | .strV s => s
  | .pointV a b => "POINT (" ++ valueToString a ++ " " ++ valueToString b ++ ")"

/-- The coercion `.astype(str)` applies to each cell. -/
def stringify (v : Value) : Value := .strV (valueToString v)

/-- A pandas `DataFrame` / geopandas `GeoDataFrame`: named columns, rows of
cells in column order, whether the runtime object is a `GeoDataFrame`
(`isinstance(df, gpd.GeoDataFrame)`), and its `df.crs` attribute
(`none` models `crs is None`). -/
structure GeoTable where
  cols : List String
  rows : List (List Value)
  isGeo : Bool
  crs : Option String
deriving DecidableEq, Repr

/-- Position of column `c` in a column list, as pandas resolves a column
name passed to `left_on` / `right_on`. -/
def colIdx (c : String) : List String → Option Nat
  | [] => none
  | c0 :: cs => if c0 = c then some 0 else (colIdx c cs).map (· + 1)

/-- Apply `f` to the cell at position `i` of a row, leaving every other
cell unchanged (the effect of `df[col] = df[col].astype(str)` on one row). -/
def modifyAt (i : Nat) (f : Value → Value) : List Value → List Value
  | [] => []
  | v :: vs =>
    match i with
    | 0 => f v :: vs
    | j + 1 => v :: modifyAt j f vs

/-- `df[c] = df[c].astype(str)` (`process_geodata.py` lines 230-231):
coerce every cell of column `c` to its textual representation. -/
def coerceCol (t : GeoTable) (c : String) : GeoTable :=
  match colIdx c t.cols with
  | some i => { t with rows := t.rows.map (modifyAt i stringify) }
  | none => t

/-- Equality test the pandas merge applies to one candidate row pair:
both key cells present and equal. -/
def rowMatchB (li ri : Nat) (lrow rrow : List Value) : Bool :=
  match lrow[li]?, rrow[ri]? with
  | some a, some b => a == b
  | _, _ => false

/-- The row set of `left_df.merge(right_df, left_on, right_on, how='inner')`:
for each left row in order, one output row per matching right row, the
output row being the concatenation of the two input rows. -/
def joinRows (li ri : Nat) (lrows rrows : List (List Value)) : List (List Value) :=
  lrows.flatMap (fun lrow =>
    (rrows.filter (rowMatchB li ri lrow)).map (fun rrow => lrow ++ rrow))

/-- The merge of `process_geodata.py` lines 240-258: inner equi-join of the
two tables on key column positions `li`/`ri`, columns of the left table
followed by those of the right; the result is geometry-bearing when the
left frame was a `GeoDataFrame` (pandas preserves the class of the left
operand) or when a `geometry` column is present (lines 254-256 convert in
that case). -/
def mergeTables (lt rt : GeoTable) (li ri : Nat) : GeoTable :=
  { cols := lt.cols ++ rt.cols
    rows := joinRows li ri lt.rows rt.rows
    isGeo := lt.isGeo || decide ("geometry" ∈ lt.cols ++ rt.cols)
    crs := if lt.isGeo then lt.crs else rt.crs }

/-- Error taxonomy of the join stage. -/
inductive JoinSide where
  | left
  | right
deriving DecidableEq, Repr

inductive JoinError where
  | missingJoinInput (leftKey rightKey : String)
  | missingJoinColumn (side : JoinSide) (column : String)
deriving DecidableEq, Repr

/-- Modelled from the spec: the working directory of parquet artifacts,
keyed by dataset identity. The parquet (de)serialization itself is
external library code (`to_parquet` / `read_parquet` of pandas and
geopandas); per the spec's Storage Writer contract it preserves the table,
so an artifact is the stored `GeoTable` itself. -/
abbrev Storage := List (String × GeoTable)

/-- Modelled from the spec: reading the artifact stored under key `k`
(`gpd.read_parquet` with fallback to `pd.read_parquet`,
`process_geodata.py` lines 210-217). -/
def loadArtifact (s : Storage) (k : String) : Option GeoTable :=
  (s.find? (fun kv => kv.1 == k)).map (fun kv => kv.2)

/-- Modelled from the spec: `df.to_parquet(output_path)` — overwrite the
artifact stored under key `k`. -/
def storeArtifact (s : Storage) (k : String) (t : GeoTable) : Storage :=
  (k, t) :: s.filter (fun kv => kv.1 != k)

/-- A join descriptor (`DatasetJoin` dataclass of both scripts). -/
structure DatasetJoin where
  left_dataset : String
  right_dataset : String
  left_column : String
  right_column : String
deriving DecidableEq, Repr

/-- Output artifact key `f"{left}_{right}_joined"` of the join. -/
def joinKey (j : DatasetJoin) : String :=
  j.left_dataset ++ "_" ++ j.right_dataset ++ "_joined"

/-- The body of `GeoDataProcessor.process_join` of `process_geodata.py`
(lines 201-258) up to the point where the result is written: check both
input artifacts exist (else the missing-files early return), check the
key column of each side (lines 224-227 raise naming the side), coerce both
key columns to strings (lines 230-231), and merge (lines 240-258). -/
def processJoinE (s : Storage) (j : DatasetJoin) : Except JoinError GeoTable :=
  match loadArtifact s j.left_dataset, loadArtifact s j.right_dataset with
  | some lt, some rt =>
    match colIdx j.left_column lt.cols, colIdx j.right_column rt.cols with
    | none, _ => .error (.missingJoinColumn .left j.left_column)
    | some _, none => .error (.missingJoinColumn .right j.right_column)
    | some li, some ri =>
        .ok (mergeTables (coerceCol lt j.left_column) (coerceCol rt j.right_column) li ri)
  | _, _ => .error (.missingJoinInput j.left_dataset j.right_dataset)

/-- `GeoDataProcessor.process_join` of `process_geodata.py` with its
surrounding `try/except` (lines 200-271): on success the merged table is
written under the join key and the path returned; any error is caught,
logged, and `None` returned with nothing written. -/
def processJoin (s : Storage) (j : DatasetJoin) : Storage × Option String :=
  match processJoinE s j with
  | .ok t => (storeArtifact s (joinKey j) t, some (joinKey j))
  | .error _ => (s, none)

/-- Number of join-output rows whose key cell (position `i`) is the
string `k`. -/
def countKeyRows (rows : List (List Value)) (i : Nat) (k : String) : Nat :=
  rows.countP (fun r => r[i]? == some (Value.strV k))

/-- Number of source rows whose key cell stringifies to `k`. -/
def countSourceKey (rows : List (List Value)) (i : Nat) (k : String) : Nat :=
  rows.countP (fun r => (r[i]?).map stringify == some (Value.strV k))

/-! Format detection and the loaders (`download_data.py` lines 141-165,
`process_geodata.py` lines 141-168). -/

/-- The five format tokens the dispatcher knows. -/
inductive Format where
  | geojson
  | csv
  | json
  | zip
  | parquet
deriving DecidableEq, Repr

/-- Substring containment on character lists (Python `tok in s`): `tok`
occurs contiguously somewhere in `hay`. -/
def charsContain (hay tok : List Char) : Bool :=
  match hay with
  | [] => tok.isEmpty
  | _ :: rest => tok.isPrefixOf hay || charsContain rest tok

/-- Suffix test on character lists (`name.endswith(tok)`). -/
def charsSuffix (tok hay : List Char) : Bool :=
  tok.reverse.isPrefixOf hay.reverse

/-- Python `tok in tag.lower()`: case-insensitive substring containment of a
(lowercase) token in the declared-format tag. -/
def containsTok (tag tok : String) : Bool :=
  charsContain (tag.toList.map Char.toLower) tok.toList

/-- Whether an archive member name is a shapefile (`**/*.shp`). -/
def shpMember (name : String) : Bool :=
  charsSuffix ".shp".toList name.toList

/-- The format dispatch of `download_data.py` lines 142-163: the `if/elif`
chain tests, in this order, substring containment of `geojson`, `csv`,
`json`, `zip`, `parquet` in the lowercased declared-format tag; an absent tag
(`None`, falsy) or one matching no branch falls through to the unsupported
case. -/
def detectFormat (tag : Option String) : Option Format :=
  match tag with
  | none => none
  | some f =>
    if containsTok f "geojson" then some .geojson
    else if containsTok f "csv" then some .csv
    else if containsTok f "json" then some .json
    else if containsTok f "zip" then some .zip
    else if containsTok f "parquet" then some .parquet
    else none

/-- The lowercase token each branch tests for. -/
def formatToken : Format → String
  | .geojson => "geojson"
  | .csv => "csv"
  | .json => "json"
  | .zip => "zip"
  | .parquet => "parquet"

/-- Branch order as it appears in the source (`download_data.py` 142-163). -/
def sourceOrder : List Format := [.geojson, .csv, .json, .zip, .parquet]

/-- First format of `order` whose token the tag contains. -/
def firstMatching (order : List Format) (tag : String) : Option Format :=
  order.find? (fun f => containsTok tag (formatToken f))

/-- Branch order as the specification states it (geojson, zip, csv, json,
parquet) — a second definition following the spec's words, for comparison
with the source dispatch `detectFormat`. -/
def claimedOrder : List Format := [.geojson, .zip, .csv, .json, .parquet]

/-- Well-formed (or not) byte payloads, one constructor per source format the
loaders can receive: GeoJSON text, delimited text, record-oriented JSON, a
zip archive given by its member files, a parquet byte stream, or bytes no
parser accepts. -/
structure ShapeData where
  cols : List String
  rows : List (List Value)
  crs : Option String
deriving DecidableEq, Repr

inductive Payload where
  | geojsonBody (d : ShapeData)
  | csvBody (cols : List String) (rows : List (List Value))
  | jsonBody (cols : List String) (rows : List (List Value))
  | zipBody (members : List (String × ShapeData))
  | parquetBody (cols : List String) (rows : List (List Value))
  | otherBody
deriving DecidableEq, Repr

/-- Errors of the load stage. -/
inductive LoadError where
  | unsupportedFormat
  | parseFailure
  | missingArchiveMember
deriving DecidableEq, Repr

/-- Modelled from the spec: `gpd.read_file(response.text)` on GeoJSON text —
external library code; per the loader contract it yields one row per feature
and takes geometry and any embedded spatial reference as-is. -/
def parseGeojsonBody : Payload → Except LoadError GeoTable
  | .geojsonBody d => .ok ⟨d.cols, d.rows, true, d.crs⟩
  | _ => .error .parseFailure

/-- Modelled from the spec: `pd.read_csv` — one row per source record, plain
table. -/
def parseCsvBody : Payload → Except LoadError GeoTable
  | .csvBody cols rows => .ok ⟨cols, rows, false, none⟩
  | _ => .error .parseFailure

/-- Modelled from the spec: `pd.read_json` — one row per source record, plain
table. -/
def parseJsonBody : Payload → Except LoadError GeoTable
  | .jsonBody cols rows => .ok ⟨cols, rows, false, none⟩
  | _ => .error .parseFailure

/-- Paths under the scoped temporary directory of the zip branch. -/
def isTempDirFile (f : String) : Bool := "tmpdir".toList.isPrefixOf f.toList

/-- Removal of the scoped temporary directory and its contents, as
`tempfile.TemporaryDirectory` guarantees when its `with` block exits. -/
def dropTempDir (fs : List String) : List String :=
  fs.filter (fun f => !isTempDirFile f)

/-- The zip branch of `process_geodata.py` lines 146-168, with the file-system
state threaded explicitly as the list of existing temporary paths: create a
scoped temporary directory, write `temp.zip` into it, extract, glob for
`**/*.shp`, raise when no shapefile member exists, read the first one
otherwise; the `with tempfile.TemporaryDirectory()` block removes the
directory on both exits. -/
def loadZipScoped (p : Payload) (fs : List String) :
    Except LoadError GeoTable × List String :=
  match p with
  | .zipBody members =>
    let fs1 := fs ++ ["tmpdir", "tmpdir/temp.zip"]
    match members.find? (fun m => shpMember m.1) with
    | some m => (.ok ⟨m.2.cols, m.2.rows, true, m.2.crs⟩, dropTempDir fs1)
    | none => (.error .missingArchiveMember, dropTempDir fs1)
  | _ => (.error .parseFailure, dropTempDir (fs ++ ["tmpdir", "tmpdir/temp.zip"]))

/-- The zip branch of `download_data.py` lines 148-155: write `temp.zip` into
the data directory, read it with `gpd.read_file("zip://...")` (which raises
when the archive holds no readable vector dataset), and call
`temp_zip.unlink()` afterwards — the unlink is only reached on the success
path. -/
def loadZipManual (p : Payload) (fs : List String) :
    Except LoadError GeoTable × List String :=
  let fs1 := fs ++ ["temp.zip"]
  match p with
  | .zipBody members =>
    match members.find? (fun m => shpMember m.1) with
    | some m => (.ok ⟨m.2.cols, m.2.rows, true, m.2.crs⟩,
        fs1.filter (fun f => f != "temp.zip"))
    | none => (.error .parseFailure, fs1)
  | _ => (.error .parseFailure, fs1)

/-- The parquet branch of `download_data.py` lines 156-162: write
`temp.parquet` into the data directory, `pd.read_parquet` it, and call
`temp_parquet.unlink()` afterwards — again only reached on success. -/
def loadParquetManual (p : Payload) (fs : List String) :
    Except LoadError GeoTable × List String :=
  let fs1 := fs ++ ["temp.parquet"]
  match p with
  | .parquetBody cols rows => (.ok ⟨cols, rows, false, none⟩,
      fs1.filter (fun f => f != "temp.parquet"))
  | _ => (.error .parseFailure, fs1)

/-- Parse a payload with the parser of one format branch, threading the
temporary-file state. The geojson/csv/json branches parse the HTTP response
text directly; zip uses the scoped extraction of `process_geodata.py`;
parquet uses the temporary file of `download_data.py`. -/
def loadFormat : Format → Payload → List String →
    Except LoadError GeoTable × List String
  | .geojson, p, fs => (parseGeojsonBody p, fs)
  | .csv, p, fs => (parseCsvBody p, fs)
  | .json, p, fs => (parseJsonBody p, fs)
  | .zip, p, fs => loadZipScoped p fs
  | .parquet, p, fs => loadParquetManual p fs

/-- The loader: dispatch on the declared-format tag, then parse; an absent or
unmatched tag is the unsupported-format failure (`download_data.py` lines
163-165) and no table of any kind is returned. -/
def loadPayload (tag : Option String) (p : Payload) (fs : List String) :
    Except LoadError GeoTable × List String :=
  match detectFormat tag with
  | some f => loadFormat f p fs
  | none => (.error .unsupportedFormat, fs)

/-- The point column `gpd.points_from_xy(df.longitude, df.latitude)` builds:
one point per row from the `longitude` and `latitude` cells. -/
def latLonPoints (t : GeoTable) : List Value :=
  match colIdx "longitude" t.cols, colIdx "latitude" t.cols with
  | some lo, some la =>
      t.rows.map (fun r => Value.pointV (r.getD lo (.strV "")) (r.getD la (.strV "")))
  | _, _ => []

/-- `gpd.GeoDataFrame(df, geometry=gpd.points_from_xy(...), crs="EPSG:4326")`
(`download_data.py` lines 173-177): keep all columns, append the synthesized
point column, and become a geometry-bearing table with EPSG:4326. -/
def synthLatLon (t : GeoTable) : GeoTable :=
  { cols := t.cols ++ ["geometry"]
    rows := (t.rows.zip (latLonPoints t)).map (fun q => q.1 ++ [q.2])
    isGeo := true
    crs := some "EPSG:4326" }

/-- The CRS-normalization policy of the pipeline, assembled from the two code
fragments that implement it: `process_geodata.py` lines 170-174 (a
`GeoDataFrame` whose `crs` is `None` gets EPSG:4326 assigned via `set_crs`,
any other `GeoDataFrame` is left unchanged) and `download_data.py` lines
170-180 (a plain table with exact columns `latitude` and `longitude` gains
synthesized point geometry with EPSG:4326, any other plain table is left
unchanged). -/
def normalize (t : GeoTable) : GeoTable :=
  if t.isGeo then
    if t.crs = none then { t with crs := some "EPSG:4326" } else t
  else if "latitude" ∈ t.cols ∧ "longitude" ∈ t.cols then synthLatLon t
  else t

/-! Batch orchestration (`download_data.py` lines 51-74, 120-242). -/

/-- One dataset record of the catalog query: page name, `DirectLink` and
`HasFormat` printout value lists (either may be empty). -/
structure DatasetInfo where
  fulltext : String
  directLinks : List String
  hasFormats : List String
deriving DecidableEq, Repr

/-- One `log_to_wiki` call: the OperationResult record written back to the
catalog (dataset name, success flag, optional error text). -/
structure LogEntry where
  dataset : String
  success : Bool
  errorText : Option String
deriving DecidableEq, Repr

/-- The network: which URLs return a successful response with which payload;
a URL outside the map models a connection error or a `raise_for_status`
failure. -/
abbrev Env := List (String × Payload)

def lookupEnv (env : Env) (url : String) : Option Payload :=
  (env.find? (fun kv => kv.1 == url)).map (fun kv => kv.2)

/-- The storage-conversion step of `download_data.py` lines 167-180: a
`GeoDataFrame` is stored as-is; a plain table with `latitude`/`longitude`
columns is converted to points first; any other plain table is stored
plain. -/
def convertForStorage (t : GeoTable) : GeoTable :=
  if t.isGeo then t
  else if "latitude" ∈ t.cols ∧ "longitude" ∈ t.cols then synthLatLon t
  else t

/-- `GeoDataProcessor.download_dataset` of `download_data.py` lines 120-190:
a dataset with no `DirectLink` is reported as a failure without network
access; a network failure raises and is caught with a failure report; an
unrecognized format logs to the application log and returns `None` without
any wiki report (lines 163-165); a parser exception is caught and reported;
on success the converted table is stored and a success record written. -/
def downloadDataset (env : Env) (s : Storage) (info : DatasetInfo) :
    Storage × Option String × List LogEntry :=
  match info.directLinks.head? with
  | none =>
      (s, none, [⟨info.fulltext, false,
        some ("No download URL for " ++ info.fulltext)⟩])
  | some url =>
    match lookupEnv env url with
    | none => (s, none, [⟨info.fulltext, false, some "HTTPError"⟩])
    | some payload =>
      match detectFormat info.hasFormats.head? with
      | none => (s, none, [])
      | some f =>
        match (loadFormat f payload []).1 with
        | .error _ => (s, none, [⟨info.fulltext, false, some "parse error"⟩])
        | .ok df =>
            (storeArtifact s info.fulltext (convertForStorage df),
             some info.fulltext, [⟨info.fulltext, true, none⟩])

/-- The merge of `download_data.py` lines 207-212: plain inner join with no
key coercion; the result keeps the class and `crs` of the left operand. -/
def plainMerge (lt rt : GeoTable) (li ri : Nat) : GeoTable :=
  { cols := lt.cols ++ rt.cols
    rows := joinRows li ri lt.rows rt.rows
    isGeo := lt.isGeo
    crs := lt.crs }

/-- `GeoDataProcessor.process_join` of `download_data.py` lines 192-227:
missing input files give the early `None` return; a key column missing from
either side makes the pandas merge raise `KeyError`, caught by the wrapping
`except` with a `None` return; on success the merged table is stored. No
branch writes any wiki record. -/
def processJoinD (s : Storage) (j : DatasetJoin) : Storage × Option String :=
  match loadArtifact s j.left_dataset, loadArtifact s j.right_dataset with
  | some lt, some rt =>
    match colIdx j.left_column lt.cols, colIdx j.right_column rt.cols with
    | some li, some ri =>
        (storeArtifact s (joinKey j) (plainMerge lt rt li ri), some (joinKey j))
    | _, _ => (s, none)
  | _, _ => (s, none)

/-- One raw join record of the catalog query: the four printout value lists
(`LeftDataSet`, `RightDataSet`, `LeftColumn`, `RightColumn`), any of which
may be empty. -/
structure RawJoin where
  leftDS : List String
  rightDS : List String
  leftCol : List String
  rightCol : List String
deriving DecidableEq, Repr

/-- The uncaught `IndexError` of `get_join_config`. -/
inductive ConfigError where
  | indexError
deriving DecidableEq, Repr

/-- `result['printouts'][...][0]` on the four printout lists
(`download_data.py` lines 66-71): indexing an empty value list raises. -/
def rawToJoin (r : RawJoin) : Except ConfigError DatasetJoin :=
  match r.leftDS, r.rightDS, r.leftCol, r.rightCol with
  | a :: _, b :: _, c :: _, d :: _ => .ok ⟨a, b, c, d⟩
  | _, _, _, _ => .error .indexError

/-- `GeoDataProcessor.get_join_config` (`download_data.py` lines 59-74):
build the join list in order; the first malformed record raises and the
error propagates (the function has no exception handler). -/
def getJoinConfig : List RawJoin → Except ConfigError (List DatasetJoin)
  | [] => .ok []
  | r :: rs =>
    match rawToJoin r, getJoinConfig rs with
    | .ok j, .ok js => .ok (j :: js)
    | .error e, _ => .error e
    | .ok _, .error e => .error e

/-- The per-dataset loop of `process_all`: one outcome per dataset, the wiki
log entries concatenated in order. -/
def runDatasets (env : Env) : Storage → List DatasetInfo →
    Storage × List (Option String) × List LogEntry
  | s, [] => (s, [], [])
  | s, d :: ds =>
    let r := downloadDataset env s d
    let rest := runDatasets env r.1 ds
    (rest.1, r.2.1 :: rest.2.1, r.2.2 ++ rest.2.2)

/-- The per-join loop of `process_all`: one outcome per join. -/
def runJoins : Storage → List DatasetJoin → Storage × List (Option String)
  | s, [] => (s, [])
  | s, j :: js =>
    let r := processJoinD s j
    let rest := runJoins r.1 js
    (rest.1, r.2 :: rest.2)

/-- Result of a completed batch run. -/
structure BatchOutcome where
  storage : Storage
  datasetResults : List (Option String)
  joinResults : List (Option String)
  wikiLog : List LogEntry
deriving Repr

/-- `GeoDataProcessor.process_all` of `download_data.py` lines 229-242: read
the dataset and join configurations (the join-configuration read can raise,
and nothing catches it), then download every dataset, then process every
join. -/
def processAll (env : Env) (s : Storage) (datasets : List DatasetInfo)
    (rawJoins : List RawJoin) : Except ConfigError BatchOutcome :=
  match getJoinConfig rawJoins with
  | .error e => .error e
  | .ok joins =>
    let rd := runDatasets env s datasets
    let rj := runJoins rd.1 joins
    .ok ⟨rj.1, rd.2.1, rj.2, rd.2.2⟩

/-- Example dataset record with a reachable URL and an unmatched format. -/
def infoXml : DatasetInfo := ⟨"ds1", ["http://x"], ["xml"]⟩

/-- Example network serving that URL a csv payload. -/
def envX : Env := [("http://x", .csvBody ["a"] [[.intV 1]])]

/-- Example malformed raw join record (empty `LeftDataSet` printout). -/
def badRaw : RawJoin := ⟨[], ["B"], ["k"], ["k2"]⟩

/-- Example zip payload with no `.shp` member. -/
def noShpZip : Payload := .zipBody [("readme.txt", ⟨["a"], [[.intV 1]], none⟩)]

/-- Example zip payload whose single member is a two-record shapefile. -/
def shpMembers : List (String × ShapeData) :=
  [("data/x.shp", ⟨["g"], [[.intV 1], [.intV 2]], some "EPSG:4326"⟩)]

/-- Example geometry-bearing table that already has a spatial reference. -/
def geoEx : GeoTable :=
  ⟨["geometry"], [[.pointV (.intV 1) (.intV 2)]], true, some "EPSG:3857"⟩

/-- Example geometry-bearing table with no spatial reference. -/
def geoNoCrsEx : GeoTable :=
  ⟨["geometry"], [[.pointV (.intV 1) (.intV 2)]], true, none⟩

/-- Example plain table with exact `latitude` and `longitude` columns. -/
def latlonEx : GeoTable :=
  ⟨["latitude", "longitude"], [[.intV 1, .intV 2]], false, none⟩

/-- Example left table: key column `k` with values `1` (int), `"1"` (string)
and `2` (int) — two rows stringify to `"1"`. -/
def ltEx : GeoTable :=
  ⟨["k", "a"],
   [[.intV 1, .strV "x"], [.strV "1", .strV "y"], [.intV 2, .strV "z"]],
   false, none⟩

/-- Example right table: key column `k2` with values `1`, `1`, `3` (ints) —
two rows stringify to `"1"`. -/
def rtEx : GeoTable :=
  ⟨["k2", "b"],
   [[.intV 1, .strV "p"], [.intV 1, .strV "q"], [.intV 3, .strV "r"]],
   false, none⟩

/-- Example artifact store holding both tables. -/
def storEx : Storage := [("A", ltEx), ("B", rtEx)]

/-- Example join descriptor on the two stored tables. -/
def joinEx : DatasetJoin := ⟨"A", "B", "k", "k2"⟩

/-! Helper lemmas about rows, column indices and the artifact store. -/

theorem length_modifyAt (i : Nat) (f : Value → Value) (l : List Value) :
    (modifyAt i f l).length = l.length := by
  induction l generalizing i with
  | nil => simp [modifyAt]
  | cons v vs ih =>
    cases i with
    | zero => simp [modifyAt]
    | succ j => simp [modifyAt, ih]

theorem getElem?_modifyAt_self (i : Nat) (f : Value → Value) (l : List Value) :
    (modifyAt i f l)[i]? = (l[i]?).map f := by
  induction l generalizing i with
  | nil => simp [modifyAt]
  | cons v vs ih =>
    cases i with
    | zero => simp [modifyAt]
    | succ j => simpa [modifyAt] using ih j

theorem getElem?_modifyAt_ne (i j : Nat) (f : Value → Value) (l : List Value)
    (h : j ≠ i) : (modifyAt i f l)[j]? = l[j]? := by
  induction l generalizing i j with
  | nil => simp [modifyAt]
  | cons v vs ih =>
    cases i with
    | zero =>
      cases j with
      | zero => exact absurd rfl h
      | succ m => simp [modifyAt]
    | succ i =>
      cases j with
      | zero => simp [modifyAt]
      | succ m => simpa [modifyAt] using ih i m (fun hh => h (by rw [hh]))

theorem colIdx_eq_none_iff (c : String) (cs : List String) :
    colIdx c cs = none ↔ c ∉ cs := by
  induction cs with
  | nil => simp [colIdx]
  | cons c0 cs ih =>
    by_cases h : c0 = c
    · simp [colIdx, h]
    · simp [colIdx, h, ih, List.mem_cons, Ne.symm h]

theorem colIdx_lt_length {c : String} {cs : List String} {i : Nat}
    (h : colIdx c cs = some i) : i < cs.length := by
  induction cs generalizing i with
  | nil => simp [colIdx] at h
  | cons c0 cs ih =>
    by_cases h0 : c0 = c
    · simp [colIdx, h0] at h
      simp [← h]
    · simp [colIdx, h0] at h
      obtain ⟨a, ha, rfl⟩ := h
      have := ih ha
      simp
      omega

theorem colIdx_isSome_of_mem {c : String} {cs : List String} (h : c ∈ cs) :
    ∃ i, colIdx c cs = some i := by
  cases ho : colIdx c cs with
  | none => exact absurd ((colIdx_eq_none_iff c cs).mp ho) (by simp [h])
  | some i => exact ⟨i, rfl⟩

theorem loadArtifact_storeArtifact (s : Storage) (k : String) (t : GeoTable) :
    loadArtifact (storeArtifact s k t) k = some t := by
  unfold loadArtifact storeArtifact
  rw [List.find?_cons_of_pos]
  · rfl
  · simp

theorem countP_const (c : Bool) (xs : List (List Value)) :
    xs.countP (fun _ => c) = if c then xs.length else 0 := by
  induction xs with
  | nil => simp
  | cons x xs ih =>
    rw [List.countP_cons]
    cases c <;> simp [ih]

theorem rowMatchB_eq (li ri : Nat) (l rrow : List Value) (a : Value)
    (h : l[li]? = some a) : rowMatchB li ri l rrow = (rrow[ri]? == some a) := by
  unfold rowMatchB
  rw [h]
  cases rrow[ri]? with
  | none => simp
  | some b => simp [eq_comm]

/-- Counting lemma for the merge: each left row with key value `k` pairs with
every right row with key value `k`, so per-key output counts multiply. -/
theorem countP_joinRows (li ri : Nat) (L R : List (List Value)) (v : Value)
    (hL : ∀ l ∈ L, li < l.length) :
    (joinRows li ri L R).countP (fun r => r[li]? == some v)
      = L.countP (fun r => r[li]? == some v)
        * R.countP (fun r => r[ri]? == some v) := by
  induction L with
  | nil => simp [joinRows]
  | cons l L ih =>
    have hl : li < l.length := hL l (by simp)
    have hrest : ∀ x ∈ L, li < x.length := fun x hx => hL x (by simp [hx])
    rw [joinRows, List.flatMap_cons, List.countP_append, ← joinRows, ih hrest,
      List.countP_map, List.countP_cons]
    have hkey : ∀ rrow : List Value, (l ++ rrow)[li]? = l[li]? :=
      fun rrow => List.getElem?_append_left hl
    by_cases hc : l[li]? = some v
    · have hfun : ((fun r : List Value => r[li]? == some v) ∘ fun rrow => l ++ rrow)
          = fun _ => true := by
        funext r
        simp [Function.comp, hkey, hc]
      have hmatch : rowMatchB li ri l = fun rrow => rrow[ri]? == some v :=
        funext (fun rrow => rowMatchB_eq li ri l rrow v hc)
      rw [hfun, countP_const, if_pos rfl, hmatch, ← List.countP_eq_length_filter]
      simp [hc]
      ring
    · have hfun : ((fun r : List Value => r[li]? == some v) ∘ fun rrow => l ++ rrow)
          = fun _ => false := by
        funext r
        simp [Function.comp, hkey, hc]
      rw [hfun, countP_const, if_neg (by simp)]
      simp [hc]

theorem coerceCol_rows {t : GeoTable} {c : String} {i : Nat}
    (h : colIdx c t.cols = some i) :
    coerceCol t c = { t with rows := t.rows.map (modifyAt i stringify) } := by
  unfold coerceCol
  rw [h]

theorem processJoinE_ok {s : Storage} {j : DatasetJoin} {lt rt : GeoTable}
    {li ri : Nat}
    (hL : loadArtifact s j.left_dataset = some lt)
    (hR : loadArtifact s j.right_dataset = some rt)
    (hli : colIdx j.left_column lt.cols = some li)
    (hri : colIdx j.right_column rt.cols = some ri) :
    processJoinE s j
      = .ok (mergeTables (coerceCol lt j.left_column) (coerceCol rt j.right_column) li ri) := by
  simp [processJoinE, hL, hR, hli, hri]

theorem mergeTables_rows_coerced {lt rt : GeoTable} {li ri : Nat}
    (hli : colIdx lc lt.cols = some li) (hri : colIdx rc rt.cols = some ri) :
    (mergeTables (coerceCol lt lc) (coerceCol rt rc) li ri).rows
      = joinRows li ri (lt.rows.map (modifyAt li stringify))
          (rt.rows.map (modifyAt ri stringify)) := by
  rw [coerceCol_rows hli, coerceCol_rows hri]
  rfl

/-- C1: for every pair of stored tables in which the configured key columns
both exist, the join coerces both key columns to their textual representation
and inner-joins on textual equality: for every key string `k`, the output has
exactly `m * n` rows with that key, where `m` left rows and `n` right rows
stringify to `k`; a key present on only one side contributes no output row. -/
theorem join_textual_cartesian_count
    (s : Storage) (j : DatasetJoin) (lt rt : GeoTable) (li ri : Nat) (k : String)
    (hL : loadArtifact s j.left_dataset = some lt)
    (hR : loadArtifact s j.right_dataset = some rt)
    (hli : colIdx j.left_column lt.cols = some li)
    (hri : colIdx j.right_column rt.cols = some ri)
    (hwfL : ∀ r ∈ lt.rows, r.length = lt.cols.length) :
    ∃ out, processJoinE s j = .ok out ∧
      countKeyRows out.rows li k
        = countSourceKey lt.rows li k * countSourceKey rt.rows ri k ∧
      (countSourceKey rt.rows ri k = 0 → countKeyRows out.rows li k = 0) ∧
      (countSourceKey lt.rows li k = 0 → countKeyRows out.rows li k = 0) := by
  refine ⟨_, processJoinE_ok hL hR hli hri, ?_⟩
  have hrows := mergeTables_rows_coerced hli hri
  have hlen : ∀ l ∈ lt.rows.map (modifyAt li stringify), li < l.length := by
    intro l hmem
    obtain ⟨r, hr, rfl⟩ := List.mem_map.mp hmem
    rw [length_modifyAt, hwfL r hr]
    exact colIdx_lt_length hli
  have h1 : ((fun r : List Value => r[li]? == some (Value.strV k)) ∘ modifyAt li stringify)
      = fun r : List Value => (r[li]?).map stringify == some (Value.strV k) := by
    funext r
    simp [Function.comp, getElem?_modifyAt_self]
  have h2 : ((fun r : List Value => r[ri]? == some (Value.strV k)) ∘ modifyAt ri stringify)
      = fun r : List Value => (r[ri]?).map stringify == some (Value.strV k) := by
    funext r
    simp [Function.comp, getElem?_modifyAt_self]
  have hmain : countKeyRows
      (mergeTables (coerceCol lt j.left_column) (coerceCol rt j.right_column) li ri).rows li k
        = countSourceKey lt.rows li k * countSourceKey rt.rows ri k := by
    rw [countKeyRows, hrows, countP_joinRows li ri _ _ (Value.strV k) hlen,
      List.countP_map, List.countP_map, h1, h2, countSourceKey, countSourceKey]
  exact ⟨hmain, fun h0 => by rw [hmain, h0, Nat.mul_zero],
    fun h0 => by rw [hmain, h0, Nat.zero_mul]⟩

theorem join_textual_cartesian_count_witness :
    (∃ out, processJoinE storEx joinEx = .ok out ∧
      countKeyRows out.rows 0 "1"
        = countSourceKey ltEx.rows 0 "1" * countSourceKey rtEx.rows 0 "1" ∧
      (countSourceKey rtEx.rows 0 "1" = 0 → countKeyRows out.rows 0 "1" = 0) ∧
      (countSourceKey ltEx.rows 0 "1" = 0 → countKeyRows out.rows 0 "1" = 0)) ∧
    countSourceKey ltEx.rows 0 "1" = 2 ∧ countSourceKey rtEx.rows 0 "1" = 2 :=
  ⟨join_textual_cartesian_count storEx joinEx ltEx rtEx 0 0 "1" rfl rfl rfl rfl
      (by decide),
   by decide, by decide⟩

/-- C6: with both input artifacts present, a key column absent from the left
or right table makes the join fail with a `missingJoinColumn` error naming
that side, and no output artifact is written (the store is unchanged and no
path is returned). -/
theorem join_missing_column_names_side
    (s : Storage) (j : DatasetJoin) (lt rt : GeoTable)
    (hL : loadArtifact s j.left_dataset = some lt)
    (hR : loadArtifact s j.right_dataset = some rt) :
    (j.left_column ∉ lt.cols →
      processJoinE s j = .error (.missingJoinColumn .left j.left_column) ∧
      processJoin s j = (s, none)) ∧
    (j.left_column ∈ lt.cols → j.right_column ∉ rt.cols →
      processJoinE s j = .error (.missingJoinColumn .right j.right_column) ∧
      processJoin s j = (s, none)) := by
  constructor
  · intro hnot
    have hnone : colIdx j.left_column lt.cols = none := (colIdx_eq_none_iff _ _).mpr hnot
    have hE : processJoinE s j = .error (.missingJoinColumn .left j.left_column) := by
      simp [processJoinE, hL, hR, hnone]
    exact ⟨hE, by simp [processJoin, hE]⟩
  · intro hin hnot
    obtain ⟨i, hi⟩ := colIdx_isSome_of_mem hin
    have hnone : colIdx j.right_column rt.cols = none := (colIdx_eq_none_iff _ _).mpr hnot
    have hE : processJoinE s j = .error (.missingJoinColumn .right j.right_column) := by
      simp [processJoinE, hL, hR, hi, hnone]
    exact ⟨hE, by simp [processJoin, hE]⟩

theorem join_missing_column_names_side_witness :
    (processJoinE storEx ⟨"A", "B", "nope", "k2"⟩
        = .error (.missingJoinColumn .left "nope") ∧
      processJoin storEx ⟨"A", "B", "nope", "k2"⟩ = (storEx, none)) ∧
    (processJoinE storEx ⟨"A", "B", "k", "nope"⟩
        = .error (.missingJoinColumn .right "nope") ∧
      processJoin storEx ⟨"A", "B", "k", "nope"⟩ = (storEx, none)) :=
  ⟨(join_missing_column_names_side storEx ⟨"A", "B", "nope", "k2"⟩ ltEx rtEx
      rfl rfl).1 (by decide),
   (join_missing_column_names_side storEx ⟨"A", "B", "k", "nope"⟩ ltEx rtEx
      rfl rfl).2 (by decide) (by decide)⟩

/-- C9: the coercion is destructive: every row of the persisted join output is
the concatenation of a left row and a right row of the stored tables with the
key cells replaced by their textual (`str`) representation — the key cells of
the output equal `stringify` of the stored values, the original typing is not
kept, and every non-key cell passes through unchanged. -/
theorem join_output_keys_textual
    (s : Storage) (j : DatasetJoin) (lt rt : GeoTable) (li ri : Nat)
    (hL : loadArtifact s j.left_dataset = some lt)
    (hR : loadArtifact s j.right_dataset = some rt)
    (hli : colIdx j.left_column lt.cols = some li)
    (hri : colIdx j.right_column rt.cols = some ri)
    (hwfL : ∀ r ∈ lt.rows, r.length = lt.cols.length) :
    ∃ out, processJoin s j = (storeArtifact s (joinKey j) out, some (joinKey j)) ∧
      loadArtifact (processJoin s j).1 (joinKey j) = some out ∧
      ∀ row ∈ out.rows, ∃ lrow ∈ lt.rows, ∃ rrow ∈ rt.rows,
        row = modifyAt li stringify lrow ++ modifyAt ri stringify rrow ∧
        row[li]? = (lrow[li]?).map stringify ∧
        row[lt.cols.length + ri]? = (rrow[ri]?).map stringify ∧
        (∀ m, m < lt.cols.length → m ≠ li → row[m]? = lrow[m]?) ∧
        (∀ m, m ≠ ri → row[lt.cols.length + m]? = rrow[m]?) := by
  have hok := processJoinE_ok hL hR hli hri
  refine ⟨mergeTables (coerceCol lt j.left_column) (coerceCol rt j.right_column) li ri,
    ?_, ?_, ?_⟩
  · simp [processJoin, hok]
  · simp [processJoin, hok, loadArtifact_storeArtifact]
  · intro row hrow
    rw [mergeTables_rows_coerced hli hri, joinRows, List.mem_flatMap] at hrow
    obtain ⟨l, hlmem, hrowmem⟩ := hrow
    obtain ⟨r, hrmem, rfl⟩ := List.mem_map.mp hrowmem
    obtain ⟨lrow, hlrow, rfl⟩ := List.mem_map.mp hlmem
    obtain ⟨rrow, hrrow, rfl⟩ := List.mem_map.mp (List.mem_filter.mp hrmem).1
    have hlilen : li < (modifyAt li stringify lrow).length := by
      rw [length_modifyAt, hwfL lrow hlrow]
      exact colIdx_lt_length hli
    have hlen : (modifyAt li stringify lrow).length = lt.cols.length := by
      rw [length_modifyAt, hwfL lrow hlrow]
    refine ⟨lrow, hlrow, rrow, hrrow, rfl, ?_, ?_, ?_, ?_⟩
    · rw [List.getElem?_append_left hlilen, getElem?_modifyAt_self]
    · rw [List.getElem?_append_right (by omega), hlen]
      simp [getElem?_modifyAt_self]
    · intro m hm hne
      rw [List.getElem?_append_left (by omega), getElem?_modifyAt_ne _ _ _ _ hne]
    · intro m hne
      rw [List.getElem?_append_right (by omega), hlen]
      simp [getElem?_modifyAt_ne _ _ _ _ hne]

theorem join_output_keys_textual_witness :
    ∃ out, processJoin storEx joinEx
        = (storeArtifact storEx (joinKey joinEx) out, some (joinKey joinEx)) ∧
      loadArtifact (processJoin storEx joinEx).1 (joinKey joinEx) = some out ∧
      ∀ row ∈ out.rows, ∃ lrow ∈ ltEx.rows, ∃ rrow ∈ rtEx.rows,
        row = modifyAt 0 stringify lrow ++ modifyAt 0 stringify rrow ∧
        row[0]? = (lrow[0]?).map stringify ∧
        row[ltEx.cols.length + 0]? = (rrow[0]?).map stringify ∧
        (∀ m, m < ltEx.cols.length → m ≠ 0 → row[m]? = lrow[m]?) ∧
        (∀ m, m ≠ 0 → row[ltEx.cols.length + m]? = rrow[m]?) :=
  join_output_keys_textual storEx joinEx ltEx rtEx 0 0 rfl rfl rfl rfl (by decide)

/-- C3: the CRS normalizer is idempotent; a geometry-bearing table that
already has a spatial reference is returned unchanged; a geometry-bearing
table without one gets EPSG:4326 assigned; a plain table with exact columns
`latitude` and `longitude` gains synthesized point geometry with EPSG:4326. -/
theorem normalize_idempotent_policy :
    (∀ t : GeoTable, normalize (normalize t) = normalize t) ∧
    (∀ t : GeoTable, t.isGeo = true → t.crs ≠ none → normalize t = t) ∧
    (∀ t : GeoTable, t.isGeo = true → t.crs = none →
      normalize t = { t with crs := some "EPSG:4326" }) ∧
    (∀ t : GeoTable, t.isGeo = false → "latitude" ∈ t.cols → "longitude" ∈ t.cols →
      normalize t = synthLatLon t ∧ (normalize t).isGeo = true ∧
      (normalize t).crs = some "EPSG:4326" ∧ (normalize t).cols = t.cols ++ ["geometry"]) := by
  refine ⟨?_, ?_, ?_, ?_⟩
  · intro t
    by_cases hg : t.isGeo
    · by_cases hc : t.crs = none
      · simp [normalize, hg, hc]
      · simp [normalize, hg, hc]
    · by_cases hll : "latitude" ∈ t.cols ∧ "longitude" ∈ t.cols
      · simp [normalize, hg, hll, synthLatLon]
      · simp [normalize, hg, hll]
  · intro t hg hc
    simp [normalize, hg, hc]
  · intro t hg hc
    simp [normalize, hg, hc]
  · intro t hg hla hlo
    simp [normalize, hg, hla, hlo, synthLatLon]

theorem normalize_idempotent_policy_witness :
    normalize (normalize latlonEx) = normalize latlonEx ∧
    normalize geoEx = geoEx ∧
    normalize geoNoCrsEx = { geoNoCrsEx with crs := some "EPSG:4326" } ∧
    (normalize latlonEx = synthLatLon latlonEx ∧ (normalize latlonEx).isGeo = true ∧
      (normalize latlonEx).crs = some "EPSG:4326" ∧
      (normalize latlonEx).cols = latlonEx.cols ++ ["geometry"]) :=
  ⟨normalize_idempotent_policy.1 latlonEx,
   normalize_idempotent_policy.2.1 geoEx rfl (by decide),
   normalize_idempotent_policy.2.2.1 geoNoCrsEx rfl rfl,
   normalize_idempotent_policy.2.2.2 latlonEx rfl (by decide) (by decide)⟩

/-- C4: Storage Writer round trip: storing a table under a key and loading it
back under the same key yields the table itself, so geometry presence
(`isGeo`) and the identity of the spatial reference (`crs`) are preserved,
and in particular a plain table never gains geometry across the round trip. -/
theorem store_load_roundtrip :
    ∀ (s : Storage) (k : String) (t : GeoTable),
      loadArtifact (storeArtifact s k t) k = some t ∧
      (loadArtifact (storeArtifact s k t) k).map GeoTable.isGeo = some t.isGeo ∧
      (loadArtifact (storeArtifact s k t) k).map GeoTable.crs = some t.crs := by
  intro s k t
  have h := loadArtifact_storeArtifact s k t
  exact ⟨h, by rw [h]; rfl, by rw [h]; rfl⟩

/-- C2 counterexample: the source dispatch tests `csv` before `zip`, so the
tag `"zipped csv"` — which contains both tokens — goes to the csv branch,
while the claimed order (geojson, zip, csv, json, parquet) would send it to
the zip branch. -/
theorem dispatch_order_counterexample :
    detectFormat (some "zipped csv") = some .csv ∧
    firstMatching claimedOrder "zipped csv" = some .zip ∧
    some Format.csv ≠ some Format.zip :=
  ⟨by decide, by decide, by decide⟩

/-- C2 (amended): the loader dispatches by case-insensitive substring
containment of the tag, testing branches in the fixed source order geojson,
csv, json, zip, parquet with the first match winning; when the tag is absent
or matches no branch, the load fails with `unsupportedFormat` and never
returns a table. -/
theorem dispatch_first_match_source_order :
    (∀ tag, detectFormat (some tag) = firstMatching sourceOrder tag) ∧
    detectFormat none = none ∧
    (∀ tag p fs, detectFormat tag = none →
      loadPayload tag p fs = (.error .unsupportedFormat, fs)) := by
  refine ⟨?_, rfl, ?_⟩
  · intro tag
    simp only [detectFormat, firstMatching, sourceOrder, formatToken]
    by_cases h1 : containsTok tag "geojson" <;> by_cases h2 : containsTok tag "csv" <;>
      by_cases h3 : containsTok tag "json" <;> by_cases h4 : containsTok tag "zip" <;>
      by_cases h5 : containsTok tag "parquet" <;>
      simp [List.find?, h1, h2, h3, h4, h5]
  · intro tag p fs h
    simp [loadPayload, h]

theorem dispatch_first_match_source_order_witness :
    loadPayload (some "xml") Payload.otherBody [] = (.error .unsupportedFormat, []) ∧
    detectFormat (some "xml") = none :=
  ⟨dispatch_first_match_source_order.2.2 (some "xml") Payload.otherBody [] (by decide),
   by decide⟩

/-- C7 at the failing input: on a zip archive with no `.shp` member, the
manual zip branch of `download_data.py` fails and leaves `temp.zip` behind in
the working directory (the unlink on line 155 is never reached), contradicting
the claimed removal on every exit path; the scoped zip branch of
`process_geodata.py` fails with `missingArchiveMember` and leaves no
temporary file. -/
theorem zip_temp_cleanup_at_failing_input :
    loadZipManual noShpZip [] = (.error .parseFailure, ["temp.zip"]) ∧
    loadZipScoped noShpZip [] = (.error .missingArchiveMember, []) ∧
    (∀ p fs, (∀ f ∈ fs, isTempDirFile f = false) → (loadZipScoped p fs).2 = fs) := by
  refine ⟨rfl, rfl, ?_⟩
  intro p fs hfs
  have hdrop : dropTempDir (fs ++ ["tmpdir", "tmpdir/temp.zip"]) = fs := by
    rw [dropTempDir, List.filter_append]
    have h2 : List.filter (fun f => !isTempDirFile f) ["tmpdir", "tmpdir/temp.zip"] = [] := by
      decide
    rw [h2, List.append_nil]
    exact List.filter_eq_self.mpr (fun f hf => by rw [hfs f hf]; rfl)
  cases p with
  | zipBody members =>
    rw [loadZipScoped]
    cases hf : members.find? (fun m => shpMember m.1) <;> simp [hf, hdrop]
  | geojsonBody d => simpa [loadZipScoped] using hdrop
  | csvBody cols rows => simpa [loadZipScoped] using hdrop
  | jsonBody cols rows => simpa [loadZipScoped] using hdrop
  | parquetBody cols rows => simpa [loadZipScoped] using hdrop
  | otherBody => simpa [loadZipScoped] using hdrop

theorem zip_temp_cleanup_at_failing_input_witness :
    (loadZipScoped (.zipBody shpMembers) ["data.parquet"]).2 = ["data.parquet"] :=
  zip_temp_cleanup_at_failing_input.2.2 (.zipBody shpMembers) ["data.parquet"]
    (by decide)

/-- C8: for every supported format tag, the loader applied to a well-formed
payload of that format succeeds and returns a table whose row count equals
the number of records in the source payload (for zip, the records of the
shapefile member that is read). -/
theorem load_row_count_matches_source :
    (∀ (d : ShapeData) fs, ∃ t,
      (loadPayload (some "geojson") (.geojsonBody d) fs).1 = .ok t ∧
      t.rows.length = d.rows.length) ∧
    (∀ cols rows fs, ∃ t,
      (loadPayload (some "csv") (.csvBody cols rows) fs).1 = .ok t ∧
      t.rows.length = rows.length) ∧
    (∀ cols rows fs, ∃ t,
      (loadPayload (some "json") (.jsonBody cols rows) fs).1 = .ok t ∧
      t.rows.length = rows.length) ∧
    (∀ members m fs, members.find? (fun x => shpMember x.1) = some m →
      ∃ t, (loadPayload (some "zip") (.zipBody members) fs).1 = .ok t ∧
        t.rows.length = m.2.rows.length) ∧
    (∀ cols rows fs, ∃ t,
      (loadPayload (some "parquet") (.parquetBody cols rows) fs).1 = .ok t ∧
      t.rows.length = rows.length) := by
  refine ⟨?_, ?_, ?_, ?_, ?_⟩
  · intro d fs
    refine ⟨⟨d.cols, d.rows, true, d.crs⟩, ?_, rfl⟩
    simp [loadPayload, show detectFormat (some "geojson") = some Format.geojson from rfl,
      loadFormat, parseGeojsonBody]
  · intro cols rows fs
    refine ⟨⟨cols, rows, false, none⟩, ?_, rfl⟩
    simp [loadPayload, show detectFormat (some "csv") = some Format.csv from rfl,
      loadFormat, parseCsvBody]
  · intro cols rows fs
    refine ⟨⟨cols, rows, false, none⟩, ?_, rfl⟩
    simp [loadPayload, show detectFormat (some "json") = some Format.json from rfl,
      loadFormat, parseJsonBody]
  · intro members m fs h
    refine ⟨⟨m.2.cols, m.2.rows, true, m.2.crs⟩, ?_, rfl⟩
    simp [loadPayload, show detectFormat (some "zip") = some Format.zip from rfl,
      loadFormat, loadZipScoped, h]
  · intro cols rows fs
    refine ⟨⟨cols, rows, false, none⟩, ?_, rfl⟩
    simp [loadPayload, show detectFormat (some "parquet") = some Format.parquet from rfl,
      loadFormat, loadParquetManual]

theorem load_row_count_matches_source_witness :
    ∃ t, (loadPayload (some "zip") (.zipBody shpMembers) []).1 = .ok t ∧
      t.rows.length = 2 :=
  load_row_count_matches_source.2.2.2.1 shpMembers
    ("data/x.shp", ⟨["g"], [[.intV 1], [.intV 2]], some "EPSG:4326"⟩) [] (by decide)

theorem runDatasets_length (env : Env) (s : Storage) (ds : List DatasetInfo) :
    (runDatasets env s ds).2.1.length = ds.length := by
  induction ds generalizing s with
  | nil => rfl
  | cons d ds ih => simp [runDatasets, ih]

theorem runJoins_length (s : Storage) (js : List DatasetJoin) :
    (runJoins s js).2.length = js.length := by
  induction js generalizing s with
  | nil => rfl
  | cons j js ih => simp [runJoins, ih]

/-- C5 counterexample: a dataset whose declared format matches no branch
fails (no artifact path is returned) yet produces no OperationResult record
at all — the unsupported-format branch of `download_data.py` returns `None`
without calling `log_to_wiki` — so not every per-dataset error is converted
into an OperationResult failure record. -/
theorem batch_error_logging_counterexample :
    (downloadDataset envX [] infoXml).2.1 = none ∧
    (downloadDataset envX [] infoXml).2.2 = [] :=
  ⟨rfl, rfl⟩

/-- C5 (amended): every per-dataset and per-join error is caught at the
orchestration boundary and does not propagate — the batch yields one outcome
per item, so every remaining item is processed regardless of earlier
failures; the missing-URL, network-failure and parse-failure paths are
converted into an OperationResult failure record, but the unsupported-format
branch and all per-join failures produce no OperationResult record and only
return a failed outcome. -/
theorem batch_isolation_and_logging :
    (∀ env s datasets rawJoins joins, getJoinConfig rawJoins = .ok joins →
      ∃ res, processAll env s datasets rawJoins = .ok res ∧
        res.datasetResults.length = datasets.length ∧
        res.joinResults.length = joins.length) ∧
    (∀ env s info, info.directLinks = [] →
      downloadDataset env s info = (s, none, [⟨info.fulltext, false,
        some ("No download URL for " ++ info.fulltext)⟩])) ∧
    (∀ env s info url, info.directLinks.head? = some url →
      lookupEnv env url = none →
      downloadDataset env s info
        = (s, none, [⟨info.fulltext, false, some "HTTPError"⟩])) ∧
    (∀ env s info url p e, info.directLinks.head? = some url →
      lookupEnv env url = some p →
      (∀ f, detectFormat info.hasFormats.head? = some f → (loadFormat f p []).1 = .error e) →
      detectFormat info.hasFormats.head? ≠ none →
      downloadDataset env s info
        = (s, none, [⟨info.fulltext, false, some "parse error"⟩])) ∧
    (∀ env s info url p, info.directLinks.head? = some url →
      lookupEnv env url = some p →
      detectFormat info.hasFormats.head? = none →
      downloadDataset env s info = (s, none, [])) ∧
    (∀ s j, (processJoinD s j).2 = none → processJoinD s j = (s, none)) := by
  refine ⟨?_, ?_, ?_, ?_, ?_, ?_⟩
  · intro env s datasets rawJoins joins hcfg
    refine ⟨⟨(runJoins (runDatasets env s datasets).1 joins).1,
      (runDatasets env s datasets).2.1,
      (runJoins (runDatasets env s datasets).1 joins).2,
      (runDatasets env s datasets).2.2⟩, ?_, ?_, ?_⟩
    · simp [processAll, hcfg]
    · exact runDatasets_length env s datasets
    · exact runJoins_length _ joins
  · intro env s info h
    have : info.directLinks.head? = none := by rw [h]; rfl
    simp [downloadDataset, this]
  · intro env s info url hurl hnet
    simp [downloadDataset, hurl, hnet]
  · intro env s info url p e hurl hnet hparse hfmt
    cases hdet : detectFormat info.hasFormats.head? with
    | none => exact absurd hdet hfmt
    | some f => simp [downloadDataset, hurl, hnet, hdet, hparse f hdet]
  · intro env s info url p hurl hnet hdet
    simp [downloadDataset, hurl, hnet, hdet]
  · intro s j h
    unfold processJoinD at h ⊢
    cases hL : loadArtifact s j.left_dataset with
    | none => rfl
    | some lt =>
      cases hR : loadArtifact s j.right_dataset with
      | none => rfl
      | some rt =>
        cases hli : colIdx j.left_column lt.cols with
        | none => simp [hli]
        | some li =>
          cases hri : colIdx j.right_column rt.cols with
          | none => simp [hli, hri]
          | some ri => simp [hL, hR, hli, hri] at h

theorem batch_isolation_and_logging_witness :
    ∃ res, processAll envX [] [infoXml] [] = .ok res ∧
      res.datasetResults.length = 1 ∧ res.joinResults.length = 0 :=
  batch_isolation_and_logging.1 envX [] [infoXml] [] [] rfl

theorem rawToJoin_malformed {r : RawJoin}
    (h : r.leftDS = [] ∨ r.rightDS = [] ∨ r.leftCol = [] ∨ r.rightCol = []) :
    rawToJoin r = .error .indexError := by
  obtain ⟨lds, rds, lcs, rcs⟩ := r
  cases lds <;> cases rds <;> cases lcs <;> cases rcs <;> simp_all [rawToJoin]

theorem getJoinConfig_malformed {rawJoins : List RawJoin}
    (h : ∃ rj ∈ rawJoins,
      rj.leftDS = [] ∨ rj.rightDS = [] ∨ rj.leftCol = [] ∨ rj.rightCol = []) :
    getJoinConfig rawJoins = .error .indexError := by
  induction rawJoins with
  | nil => obtain ⟨rj, hmem, _⟩ := h; cases hmem
  | cons r rs ih =>
    obtain ⟨rj, hmem, hbad⟩ := h
    rw [getJoinConfig]
    rcases List.mem_cons.mp hmem with heq | hmem'
    · subst heq
      simp [rawToJoin_malformed hbad]
    · have hrs := ih ⟨rj, hmem', hbad⟩
      cases hr : rawToJoin r with
      | ok j => simp [hr, hrs]
      | error e => cases e; simp [hr]

/-- C10: when any raw join record has an empty value list for one of its four
properties, reading the join configuration raises an uncaught indexing error;
`process_all` reads the configuration before processing anything, so the
whole run aborts with that error and produces no dataset outcome and no join
outcome — malformed configuration is fatal, unlike a failure inside an
individual join. -/
theorem malformed_join_config_aborts_batch
    (env : Env) (s : Storage) (datasets : List DatasetInfo)
    (rawJoins : List RawJoin)
    (h : ∃ rj ∈ rawJoins,
      rj.leftDS = [] ∨ rj.rightDS = [] ∨ rj.leftCol = [] ∨ rj.rightCol = []) :
    processAll env s datasets rawJoins = .error .indexError := by
  simp [processAll, getJoinConfig_malformed h]

theorem malformed_join_config_aborts_batch_witness :
    processAll envX [] [infoXml] [badRaw] = .error .indexError :=
  malformed_join_config_aborts_batch envX [] [infoXml] [badRaw]
    ⟨badRaw, by simp, Or.inl rfl⟩

end SMWDM
